import Mathlib

/-!
Verification of the session core of `persistent_cognition.py` ("Persistent
Cognition Engine v1.0"): the `ISBE` class's context store, compression
engine, cognition loop and interjection channel, shallowly embedded as pure
state transformers.

Modelling conventions:
* Each call to `ISBE._generate` is modelled by an oracle outcome
  (`GenResult`) supplied per call: either generated text plus a
  completion-token count, or a raised exception (both the completion and the
  chat endpoint failed).
* Python `len` on `str` counts Unicode code points, as does
  `String.length`, so character thresholds translate directly.
* Python `str.strip()` is modelled by `pyStrip`, and the few other string
  operations the code uses (`in`, `split("\n")`, `"\n".join`, `s[-n:]`) by
  structurally recursive functions below, so concrete instances evaluate
  inside proofs.
* Real-time waiting (`time.sleep`, `Event.wait` timeouts) has no effect on
  the session state; a backoff sleep is recorded as an emitted event,
  wait timeouts are otherwise not modelled.
* Console printing and the JSONL log are write-only telemetry; the events a
  step emits model the log records it writes.
-/

namespace PersistentCognition

/-- Parameters of one backend generation call: `max_tokens` and
`temperature`.  The temperatures are literal constants that the code passes
through unchanged (no arithmetic is ever performed on them), so they are
represented exactly as rationals. -/
structure GenCall where
  maxTokens : Nat
  temperature : ℚ
deriving DecidableEq

/-- The `_generate` parameters of an autonomous think turn
(`ISBE._think_once`): `max_tokens=256, temperature=0.85`. -/
def thinkGenCall : GenCall := ⟨256, 85/100⟩

/-- The `_generate` parameters of a compression cycle (`ISBE._compress`):
`max_tokens=300, temperature=0.5`. -/
def compressGenCall : GenCall := ⟨300, 5/10⟩

/-- The `_generate` parameters of a dialog turn (`ISBE._respond_to_human`):
`max_tokens=512, temperature=0.7`. -/
def dialogGenCall : GenCall := ⟨512, 7/10⟩

/-- Outcome of one `ISBE._generate` call: generated text plus completion
token count (`ok`), or a raised exception (`err`). -/
inductive GenResult where
  | ok (text : String) (tokens : Nat)
  | err
deriving DecidableEq

/-- One record emitted by a loop step, modelling the console/JSONL telemetry
of `_think_once`, `_compress` and `_respond_to_human`.  Each record carries
the `GenCall` parameters the step used for its backend call. -/
inductive Event where
  | thought (call : GenCall) (text : String)
  | compressEv (call : GenCall) (summary : String) (beforeChars afterChars : Nat)
  | dialog (call : GenCall) (human : String) (response : String)
  | errorBackoff (seconds : Nat)
deriving DecidableEq

/-- The mutable state of one `ISBE` instance: the fields of `ISBE.__init__`
that the session core reads or writes.  `humanEventSet` / `responseEventSet`
model the two `threading.Event` flags of the interjection channel;
`humanInput` / `responseText` model `_human_input` / `_response_text`
(`Option` because both start as Python `None`).  Wall-clock fields (`birth`,
`_thought_durations`) and the log path are timing/telemetry only and are
not part of the model. -/
structure State where
  alive : Bool
  thinking : Bool
  thoughtCount : Nat
  compressionCount : Nat
  totalTokens : Nat
  contextText : String
  toolDefinitions : String
  maxContextChars : Nat
  compressAtChars : Nat
  thoughtInterval : ℚ
  humanInput : Option String
  humanEventSet : Bool
  responseText : Option String
  responseEventSet : Bool
deriving DecidableEq

/-- The whitespace characters Python's `str.strip()` removes (the ASCII
ones; the seeds and claims involve no exotic Unicode spacing). -/
def isPyWhitespace (c : Char) : Bool :=
  c = ' ' || c = '\t' || c = '\n' || c = '\x0d' || c = '\x0b' || c = '\x0c'

/-- Python `str.strip()`: drop leading and trailing whitespace.  Defined
structurally over the character list so that concrete instances evaluate
inside proofs. -/
def pyStrip (s : String) : String :=
  ⟨((s.data.dropWhile isPyWhitespace).reverse.dropWhile isPyWhitespace).reverse⟩

/-- Whether `needle` occurs at the start of `l`. -/
def listLeads : List Char → List Char → Bool
  | [], _ => true
  | _ :: _, [] => false
  | a :: as, b :: bs => a = b && listLeads as bs

/-- Whether `needle` occurs somewhere in `l`. -/
def subSearch (needle : List Char) : List Char → Bool
  | [] => listLeads needle []
  | c :: rest => listLeads needle (c :: rest) || subSearch needle rest

/-- Python `needle in haystack` on strings. -/
def containsSub (haystack needle : String) : Bool :=
  subSearch needle.data haystack.data

/-- Helper for `splitLines`: accumulates the current line (reversed). -/
def splitLinesAux : List Char → List Char → List String
  | [], acc => [⟨acc.reverse⟩]
  | c :: rest, acc =>
    if c = '\n' then ⟨acc.reverse⟩ :: splitLinesAux rest []
    else splitLinesAux rest (c :: acc)

/-- Python `s.split("\n")`. -/
def splitLines (s : String) : List String :=
  splitLinesAux s.data []

/-- Python `"\n".join(lines)`. -/
def joinNl : List String → String
  | [] => ""
  | [x] => x
  | x :: xs => x ++ "\n" ++ joinNl xs

/-- Python `s[-n:]`: the last `n` characters (the whole string when it is
shorter). -/
def lastChars (s : String) (n : Nat) : String :=
  ⟨(s.data.reverse.take n).reverse⟩

/-- The scan in `ISBE.__init__` that collects the
`【使用可能なツール】` section of the seed: a flag `inSection` is switched
on by a line containing `使用可能なツール`; while on, lines are collected,
and a line containing `躊躇せず` or `許可は不要` is collected and ends the
scan (`break`). -/
def collectToolSection : List String → Bool → List String
  | [], _ => []
  | line :: rest, inSection =>
    let inSection := inSection || containsSub line "使用可能なツール"
    if inSection then
      if containsSub line "躊躇せず" || containsSub line "許可は不要" then
        [line]
      else
        line :: collectToolSection rest true
    else
      collectToolSection rest false

/-- The tool-definition extraction of `ISBE.__init__`: when the seed
contains `TOOL:`, the tool section is collected line by line; if that fails,
a fallback keeps just the individual `[TOOL:...]` lines under a fresh
header.  The result is re-prepended to the context by every compression. -/
def extractToolDefinitions (seed : String) : String :=
  if containsSub seed "TOOL:" then
    let lines := splitLines seed
    let toolSection := collectToolSection lines false
    if toolSection ≠ [] then
      pyStrip (joinNl toolSection) ++ "\n\n"
    else
      let toolLines := lines.filter fun l =>
        containsSub l "[TOOL:" && containsSub l "]" && containsSub l "—"
      if toolLines ≠ [] then
        "【使用可能なツール】\n" ++ pyStrip (joinNl toolLines)
          ++ "\nツールを使いたいと思ったら、思考の中で自然に使ってよい。\n\n"
      else ""
  else ""

/-- The state of a freshly constructed and loaded `ISBE` (after
`__init__` and `load`, where `load` sets `context_text = seed_text` and
`start` sets `alive = True`). -/
def initState (seed : String) (compressAt maxCtx : Nat) (interval : ℚ) : State :=
  { alive := true
    thinking := false
    thoughtCount := 0
    compressionCount := 0
    totalTokens := 0
    contextText := seed
    toolDefinitions := extractToolDefinitions seed
    maxContextChars := maxCtx
    compressAtChars := compressAt
    thoughtInterval := interval
    humanInput := none
    humanEventSet := false
    responseText := none
    responseEventSet := false }

/-- The fixed marker `"[記憶の核]: "` that `_compress` places between the
tool preamble and the summary in the rebuilt context. -/
def coreMemoryMarker : String := "[記憶の核]: "

/-- The fixed continuation cue `_compress` appends after the summary in the
rebuilt context. -/
def continuationCue : String :=
  "\n\nこの先に何があるのか。ツールも活用しながら、続けて探求する:\n"

/-- The character window (`self.context_text[-2000:]`) `_compress` sends to
the backend. -/
def compressWindowChars : Nat := 2000

/-- The summarization prompt `_compress` builds around the trailing window
of the context.  The `GenResult` fed to `compressRun` models the backend's
response to this prompt. -/
def compressPrompt (ctx : String) : String :=
  "以下の思考の流れから、最も重要な洞察と未解決の問いだけを抽出してください。"
    ++ "結論やまとめは不要。核心の洞察と、次に探求すべき問いだけ残してください。\n\n"
    ++ "思考:\n" ++ lastChars ctx compressWindowChars ++ "\n\n核心:"

/-- The method `ISBE._compress`, as a state transformer.  It first increments
`compression_count` and records the pre-compression length, then calls the
backend (`compressGenCall` parameters); on success the context is rebuilt
as `tool_definitions + "[記憶の核]: " + summary.strip() + cue`.
`_compress` contains no exception handler, so a backend failure propagates
to the caller: this is modelled by `Except.error` carrying the state at the
raise point (counter already incremented, context untouched). -/
def compressRun (s : State) (r : GenResult) : Except State (State × List Event) :=
  let s1 : State := { s with compressionCount := s.compressionCount + 1 }
  let beforeChars := s1.contextText.length
  match r with
  | .err => .error s1
  | .ok summary _ =>
    let sm := pyStrip summary
    let newCtx := s1.toolDefinitions ++ coreMemoryMarker ++ sm ++ continuationCue
    .ok ({ s1 with contextText := newCtx },
      [Event.compressEv compressGenCall sm beforeChars newCtx.length])

/-- The method `ISBE._think_once`, as a state transformer.  `g` is the outcome of the
think-turn backend call (`thinkGenCall` parameters on the full current
context); `gc` is the outcome of the compression backend call, consumed only
if the post-append length exceeds `compress_at_chars`.  The `try/except`
catches any exception (from the generate call or from `_compress`), prints
it and sleeps 2 seconds (`errorBackoff 2`); the `finally` resets
`thinking`.  An empty stripped result returns early with no changes. -/
def thinkOnce (s : State) (g gc : GenResult) : State × List Event :=
  let s0 : State := { s with thinking := true }
  match g with
  | .err => ({ s0 with thinking := false }, [Event.errorBackoff 2])
  | .ok text tokens =>
    let t := pyStrip text
    if t = "" then
      ({ s0 with thinking := false }, [])
    else
      let s1 : State :=
        { s0 with
          thoughtCount := s0.thoughtCount + 1
          totalTokens := s0.totalTokens + tokens
          contextText := s0.contextText ++ t ++ "\n" }
      if s1.contextText.length > s1.compressAtChars then
        match compressRun s1 gc with
        | .error s2 =>
          ({ s2 with thinking := false },
            [Event.thought thinkGenCall t, Event.errorBackoff 2])
        | .ok (s2, evs2) =>
          ({ s2 with thinking := false }, Event.thought thinkGenCall t :: evs2)
      else
        ({ s1 with thinking := false }, [Event.thought thinkGenCall t])

/-- The injection marker `_respond_to_human` wraps around the human
message before appending it to the context. -/
def injectionOf (message : String) : String :=
  "\n\n[人間の声]: " ++ message ++ "\n\n[応答]:\n"

/-- The method `ISBE._respond_to_human`, as a state transformer.  `g` is the outcome
of the dialog backend call (`dialogGenCall` parameters on
`context + injection`); `gc` the outcome of a triggered compression.  The
method has only a `finally` (resetting `thinking`) and no `except`: a
backend failure — in the dialog call or inside the triggered `_compress` —
propagates to the caller, modelled by `Except.error` (carrying the state at
the raise point together with the events already logged before it, since
the dialog record is written before the compression check).  On success the
injection and the stripped reply become part of the persistent context,
the threshold is re-checked, and the reply is returned. -/
def respondToHuman (s : State) (message : String) (g gc : GenResult) :
    Except (State × List Event) (State × String × List Event) :=
  let s0 : State := { s with thinking := true }
  match g with
  | .err => .error ({ s0 with thinking := false }, [])
  | .ok text _ =>
    let response := pyStrip text
    let s1 : State :=
      { s0 with contextText := s0.contextText ++ injectionOf message ++ response ++ "\n" }
    if s1.contextText.length > s1.compressAtChars then
      match compressRun s1 gc with
      | .error s2 =>
        .error ({ s2 with thinking := false },
          [Event.dialog dialogGenCall message response])
      | .ok (s2, evs2) =>
        .ok ({ s2 with thinking := false }, response,
          Event.dialog dialogGenCall message response :: evs2)
    else
      .ok ({ s1 with thinking := false }, response,
        [Event.dialog dialogGenCall message response])

/-- One iteration of the `while self.alive` body of `ISBE._loop`.  If the
human event is set, the pending message is consumed (`_human_event.clear()`),
`_respond_to_human` runs, and on success the response is published
(`_response_text` then `_response_event.set()`) and the iteration ends
(`continue`) — no think turn runs.  Otherwise one think turn runs, followed
by a timed wait that does not change the state.  `_loop` itself has no
exception handler, so an exception escaping `_respond_to_human` escapes the
thread's body: modelled by `Except.error` (the loop thread terminates). -/
def loopIter (s : State) (g gc : GenResult) :
    Except (State × List Event) (State × List Event) :=
  if s.humanEventSet then
    let msg := s.humanInput.getD ""
    let s0 : State := { s with humanEventSet := false }
    match respondToHuman s0 msg g gc with
    | .error s' => .error s'
    | .ok (s', response, evs) =>
      .ok ({ s' with responseText := some response, responseEventSet := true }, evs)
  else
    .ok (thinkOnce s g gc)

/-- The caller-side state mutations of `ISBE.speak` before its wait:
`_human_input = message; _response_event.clear(); _human_event.set()`. -/
def submitMsg (s : State) (message : String) : State :=
  { s with
    humanInput := some message
    responseEventSet := false
    humanEventSet := true }

/-- The timeout of the `_response_event.wait` in `ISBE.speak`, seconds. -/
def speakTimeoutSecs : Nat := 300

/-- The sentinel `ISBE.speak` returns when `_response_text` is falsy. -/
def noResponseSentinel : String := "(応答なし)"

/-- The value `ISBE.speak` returns once its wait ends (by the response
event or by the 300 s timeout): `self._response_text or "(応答なし)"`,
a pure function of the `_response_text` slot at wake-up.  Python `or`
treats both `None` and the empty string as falsy. -/
def speakReturn (responseTextAtWake : Option String) : String :=
  match responseTextAtWake with
  | none => noResponseSentinel
  | some t => if t = "" then noResponseSentinel else t

/-- A whole modelled run of the loop thread: one `loopIter` per script
entry while `alive` holds, accumulating emitted events; the `Bool` records
whether the thread died by an escaped exception. -/
def runLoop : State → List (GenResult × GenResult) → State × List Event × Bool
  | s, [] => (s, [], false)
  | s, (g, gc) :: rest =>
    if s.alive then
      match loopIter s g gc with
      | .error (s', evs) => (s', evs, true)
      | .ok (s', evs) =>
        let (s'', evs', crashed) := runLoop s' rest
        (s'', evs ++ evs', crashed)
    else (s, [], false)

/-- A copy of a state with only the configured maximum context length
(`max_context_chars`, `--max-context`) replaced; used to state that this
setting has no influence on behaviour. -/
def withMaxCtx (s : State) (m : Nat) : State := { s with maxContextChars := m }

/-- A sequence of successful think turns: the backend returns the scripted
text/token pairs in order.  (The compression-oracle argument is never
consumed on the runs the theorems consider, where no threshold is
crossed.) -/
def runThinks (s : State) (script : List (String × Nat)) : State :=
  script.foldl (fun acc tn => (thinkOnce acc (.ok tn.1 tn.2) .err).1) s

/-- The total context growth a script of think turns causes: per turn the
stripped generated text plus the one-character `"\n"` separator. -/
def thinksGrowth (script : List (String × Nat)) : Nat :=
  (script.map fun tn => (pyStrip tn.1).length + 1).sum

/-- Whether a loop iteration ended in an escaped exception (the loop
thread terminating). -/
def iterCrashed (r : Except (State × List Event) (State × List Event)) : Bool :=
  match r with
  | .error _ => true
  | .ok _ => false

/-- The session state after a loop iteration, whether it completed or died
on an escaped exception. -/
def iterState (r : Except (State × List Event) (State × List Event)) : State :=
  match r with
  | .error (s, _) => s
  | .ok (s, _) => s

/-- The events a loop iteration emitted. -/
def iterEvents (r : Except (State × List Event) (State × List Event)) : List Event :=
  match r with
  | .error (_, evs) => evs
  | .ok (_, evs) => evs

/-! ## Unfolding lemmas for the individual code paths -/

theorem compressRun_err_eq (s : State) :
    compressRun s .err = .error { s with compressionCount := s.compressionCount + 1 } := rfl

theorem compressRun_ok_eq (s : State) (sm : String) (n : Nat) :
    compressRun s (.ok sm n) =
      .ok ({ s with
              compressionCount := s.compressionCount + 1
              contextText := s.toolDefinitions ++ coreMemoryMarker ++ (pyStrip sm) ++ continuationCue },
        [Event.compressEv compressGenCall (pyStrip sm) s.contextText.length
          (s.toolDefinitions ++ coreMemoryMarker ++ (pyStrip sm) ++ continuationCue).length]) := rfl

theorem thinkOnce_err_eq (s : State) (gc : GenResult) :
    thinkOnce s .err gc = ({ s with thinking := false }, [Event.errorBackoff 2]) := rfl

theorem thinkOnce_ok_no_compress (s : State) (t : String) (n : Nat) (gc : GenResult)
    (hne : (pyStrip t) ≠ "")
    (hlen : (s.contextText ++ (pyStrip t) ++ "\n").length ≤ s.compressAtChars) :
    thinkOnce s (.ok t n) gc =
      ({ s with
          thinking := false
          thoughtCount := s.thoughtCount + 1
          totalTokens := s.totalTokens + n
          contextText := s.contextText ++ (pyStrip t) ++ "\n" },
        [Event.thought thinkGenCall (pyStrip t)]) := by
  have hgt : ¬ ((s.contextText ++ (pyStrip t) ++ "\n").length > s.compressAtChars) := by omega
  simp only [thinkOnce]
  rw [if_neg hne]
  split
  · exact absurd ‹_› hgt
  · rfl

theorem thinkOnce_ok_compress (s : State) (t : String) (n : Nat) (sm : String) (m : Nat)
    (hne : (pyStrip t) ≠ "")
    (hlen : (s.contextText ++ (pyStrip t) ++ "\n").length > s.compressAtChars) :
    thinkOnce s (.ok t n) (.ok sm m) =
      ({ s with
          thinking := false
          thoughtCount := s.thoughtCount + 1
          totalTokens := s.totalTokens + n
          compressionCount := s.compressionCount + 1
          contextText := s.toolDefinitions ++ coreMemoryMarker ++ (pyStrip sm) ++ continuationCue },
        [Event.thought thinkGenCall (pyStrip t),
          Event.compressEv compressGenCall (pyStrip sm)
            (s.contextText ++ (pyStrip t) ++ "\n").length
            (s.toolDefinitions ++ coreMemoryMarker ++ (pyStrip sm) ++ continuationCue).length]) := by
  simp only [thinkOnce]
  rw [if_neg hne]
  split
  · rfl
  · exact absurd hlen ‹_›

theorem thinkOnce_ok_compress_err (s : State) (t : String) (n : Nat)
    (hne : (pyStrip t) ≠ "")
    (hlen : (s.contextText ++ (pyStrip t) ++ "\n").length > s.compressAtChars) :
    thinkOnce s (.ok t n) .err =
      ({ s with
          thinking := false
          thoughtCount := s.thoughtCount + 1
          totalTokens := s.totalTokens + n
          compressionCount := s.compressionCount + 1
          contextText := s.contextText ++ (pyStrip t) ++ "\n" },
        [Event.thought thinkGenCall (pyStrip t), Event.errorBackoff 2]) := by
  simp only [thinkOnce]
  rw [if_neg hne]
  split
  · rfl
  · exact absurd hlen ‹_›

theorem thinkOnce_ok_thoughtCount (s : State) (t : String) (n : Nat) (gc : GenResult)
    (hne : (pyStrip t) ≠ "") :
    (thinkOnce s (.ok t n) gc).1.thoughtCount = s.thoughtCount + 1 := by
  simp only [thinkOnce]
  rw [if_neg hne]
  cases gc <;> split <;> rfl

theorem respondToHuman_err_eq (s : State) (msg : String) (gc : GenResult) :
    respondToHuman s msg .err gc = .error ({ s with thinking := false }, []) := rfl

theorem respondToHuman_ok_no_compress (s : State) (msg t : String) (n : Nat) (gc : GenResult)
    (hlen : ¬ ((s.contextText ++ injectionOf msg ++ (pyStrip t) ++ "\n").length > s.compressAtChars)) :
    respondToHuman s msg (.ok t n) gc =
      .ok ({ s with
              thinking := false
              contextText := s.contextText ++ injectionOf msg ++ (pyStrip t) ++ "\n" },
        (pyStrip t), [Event.dialog dialogGenCall msg (pyStrip t)]) := by
  simp only [respondToHuman]
  split
  · exact absurd ‹_› hlen
  · rfl

theorem respondToHuman_ok_compress (s : State) (msg t : String) (n : Nat) (sm : String) (m : Nat)
    (hlen : (s.contextText ++ injectionOf msg ++ (pyStrip t) ++ "\n").length > s.compressAtChars) :
    respondToHuman s msg (.ok t n) (.ok sm m) =
      .ok ({ s with
              thinking := false
              compressionCount := s.compressionCount + 1
              contextText := s.toolDefinitions ++ coreMemoryMarker ++ (pyStrip sm) ++ continuationCue },
        (pyStrip t),
        [Event.dialog dialogGenCall msg (pyStrip t),
          Event.compressEv compressGenCall (pyStrip sm)
            (s.contextText ++ injectionOf msg ++ (pyStrip t) ++ "\n").length
            (s.toolDefinitions ++ coreMemoryMarker ++ (pyStrip sm) ++ continuationCue).length]) := by
  simp only [respondToHuman]
  split
  · rfl
  · exact absurd hlen ‹_›

theorem respondToHuman_ok_compress_err (s : State) (msg t : String) (n : Nat)
    (hlen : (s.contextText ++ injectionOf msg ++ (pyStrip t) ++ "\n").length > s.compressAtChars) :
    respondToHuman s msg (.ok t n) .err =
      .error ({ s with
              thinking := false
              compressionCount := s.compressionCount + 1
              contextText := s.contextText ++ injectionOf msg ++ (pyStrip t) ++ "\n" },
        [Event.dialog dialogGenCall msg (pyStrip t)]) := by
  simp only [respondToHuman]
  split
  · rfl
  · exact absurd hlen ‹_›

theorem loopIter_think (s : State) (g gc : GenResult) (h : s.humanEventSet = false) :
    loopIter s g gc = .ok (thinkOnce s g gc) := by
  simp only [loopIter, h]
  rfl

/-! ## The configured maximum context length is dead configuration:
every step commutes with replacing it -/

theorem compressRun_withMaxCtx (s : State) (m : Nat) (r : GenResult) :
    compressRun (withMaxCtx s m) r =
      match compressRun s r with
      | .error s' => .error (withMaxCtx s' m)
      | .ok (s', evs) => .ok (withMaxCtx s' m, evs) := by
  cases r <;> rfl

theorem thinkOnce_withMaxCtx (s : State) (m : Nat) (g gc : GenResult) :
    thinkOnce (withMaxCtx s m) g gc =
      (withMaxCtx (thinkOnce s g gc).1 m, (thinkOnce s g gc).2) := by
  cases s
  cases g with
  | err => rfl
  | ok text tokens =>
    cases gc <;>
      (simp only [thinkOnce, withMaxCtx, compressRun]
       split_ifs <;> rfl)

theorem respondToHuman_withMaxCtx (s : State) (m : Nat) (msg : String) (g gc : GenResult) :
    respondToHuman (withMaxCtx s m) msg g gc =
      match respondToHuman s msg g gc with
      | .error (s', evs) => .error (withMaxCtx s' m, evs)
      | .ok (s', resp, evs) => .ok (withMaxCtx s' m, resp, evs) := by
  cases s
  cases g with
  | err => rfl
  | ok text tokens =>
    cases gc <;>
      (simp only [respondToHuman, withMaxCtx, compressRun]
       split_ifs <;> rfl)

theorem loopIter_withMaxCtx (s : State) (m : Nat) (g gc : GenResult) :
    loopIter (withMaxCtx s m) g gc =
      match loopIter s g gc with
      | .error (s', evs) => .error (withMaxCtx s' m, evs)
      | .ok (s', evs) => .ok (withMaxCtx s' m, evs) := by
  cases s with
  | mk alive thinking tc cc tt ctx td mx ca ti hi he rt re =>
    cases he with
    | false =>
      rw [loopIter_think _ _ _ rfl, loopIter_think _ _ _ rfl, thinkOnce_withMaxCtx]
    | true =>
      have hR := respondToHuman_withMaxCtx
        (State.mk alive thinking tc cc tt ctx td mx ca ti hi false rt re) m (hi.getD "") g gc
      simp only [loopIter, withMaxCtx] at hR ⊢
      rw [hR]
      cases respondToHuman (State.mk alive thinking tc cc tt ctx td mx ca ti hi false rt re)
          (hi.getD "") g gc with
      | error e => cases e; rfl
      | ok o =>
        cases o with
        | mk s1 ro => cases ro; rfl

theorem submitMsg_withMaxCtx (s : State) (m : Nat) (msg : String) :
    submitMsg (withMaxCtx s m) msg = withMaxCtx (submitMsg s msg) m := rfl

theorem runLoop_withMaxCtx (s : State) (m : Nat) (script : List (GenResult × GenResult)) :
    runLoop (withMaxCtx s m) script =
      (withMaxCtx (runLoop s script).1 m, (runLoop s script).2) := by
  induction script generalizing s with
  | nil => rfl
  | cons p rest ih =>
    obtain ⟨g, gc⟩ := p
    have halive : (withMaxCtx s m).alive = s.alive := rfl
    by_cases h : s.alive
    · simp only [runLoop, halive, h, if_true, loopIter_withMaxCtx]
      cases hr : loopIter s g gc with
      | error e => cases e; rfl
      | ok o =>
        cases o with
        | mk s1 evs =>
          simp only [ih s1]
    · simp only [runLoop, halive, h, if_false]
      rfl

/-! ## The claims -/

/-- C1: the claim states that no exception ever propagates out of the loop
actor's body and that the loop stays live after any backend failure.  The
think path is protected by `try/except`, but `_loop` calls
`_respond_to_human` with no handler and `_respond_to_human` itself has only
a `finally`: with an interjection pending and the backend raising during
the dialog turn, the exception escapes the loop body and the thread
terminates while `alive` is still true (and the caller's response event is
never set).  This theorem evaluates the loop body at that failing input. -/
theorem c1_dialog_failure_escapes_loop :
    iterCrashed (loopIter (submitMsg (initState "abc" 50 6000 0) "hello") .err .err) = true ∧
    (iterState (loopIter (submitMsg (initState "abc" 50 6000 0) "hello") .err .err)).alive = true ∧
    (iterState (loopIter (submitMsg (initState "abc" 50 6000 0) "hello") .err .err)).responseEventSet = false := by
  refine ⟨rfl, rfl, rfl⟩

/-- C2, counterexample: the `speak` sentinel is not distinguishable from a
real empty reply, nor from a reply produced for an earlier submission.  A
dialog turn whose backend returns whitespace delivers the empty string, and
`speak` ("`self._response_text or "(応答なし)"`") turns that real empty
reply into the sentinel; and since `_response_text` is never cleared, a
timed-out `speak` whose slot still holds an earlier reply returns that
stale reply instead of the sentinel. -/
theorem c2_sentinel_collision :
    iterCrashed (loopIter (submitMsg (initState "abc" 5000 6000 0) "query") (.ok "   " 1) .err) = false ∧
    (iterState (loopIter (submitMsg (initState "abc" 5000 6000 0) "query") (.ok "   " 1) .err)).responseText = some "" ∧
    (iterState (loopIter (submitMsg (initState "abc" 5000 6000 0) "query") (.ok "   " 1) .err)).responseEventSet = true ∧
    speakReturn ((iterState (loopIter (submitMsg (initState "abc" 5000 6000 0) "query") (.ok "   " 1) .err)).responseText) = noResponseSentinel ∧
    speakReturn ((submitMsg
        { initState "abc" 5000 6000 0 with responseText := some "earlier reply" }
        "second question").responseText) = "earlier reply" ∧
    (noResponseSentinel == "earlier reply") = false := by
  refine ⟨rfl, by decide, by decide, by decide, by decide, by decide⟩

/-- C2, as amended: the value `speak` returns once its bounded wait ends is
a pure function of the `_response_text` slot at wake-up: the sentinel
exactly when the slot is `None` or holds the empty string (so a real empty
reply is indistinguishable from a timeout), and otherwise the slot's text —
which, because `submit` does not clear the slot, may on a timeout be the
reply produced for an earlier submission. -/
theorem c2_speak_wake_value :
    speakReturn none = noResponseSentinel ∧
    speakReturn (some "") = noResponseSentinel ∧
    (∀ t : String, t ≠ "" → speakReturn (some t) = t) ∧
    (∀ (s : State) (m : String), (submitMsg s m).responseText = s.responseText) := by
  refine ⟨rfl, by decide, ?_, fun s m => rfl⟩
  intro t ht
  simp [speakReturn, ht]

/-- C2, witness for the amended theorem at a concrete non-empty reply. -/
theorem c2_speak_wake_value_witness :
    speakReturn (some "hello") = "hello" :=
  c2_speak_wake_value.2.2.1 "hello" (by decide)

/-- C3: when the backend call inside `_compress` raises, the compression is
abandoned with the context text exactly retained (only the compression
counter was already incremented before the call); and after a subsequent
appending think turn on the still-oversized context the over-threshold
check fires again, so the compression is retried (the counter increments
for any compression-oracle outcome). -/
theorem c3_compression_failure_atomic :
    (∀ s : State,
      compressRun s .err = .error { s with compressionCount := s.compressionCount + 1 }) ∧
    (∀ (s : State) (t : String) (n : Nat) (gc : GenResult),
      pyStrip t ≠ "" →
      s.contextText.length > s.compressAtChars →
      (thinkOnce s (.ok t n) .err).1.contextText = s.contextText ++ pyStrip t ++ "\n" ∧
      (thinkOnce s (.ok t n) gc).1.compressionCount = s.compressionCount + 1) := by
  refine ⟨fun s => rfl, ?_⟩
  intro s t n gc hne hover
  have hlen : (s.contextText ++ pyStrip t ++ "\n").length > s.compressAtChars := by
    simp only [String.length_append]
    omega
  constructor
  · rw [thinkOnce_ok_compress_err s t n hne hlen]
  · cases gc with
    | err => rw [thinkOnce_ok_compress_err s t n hne hlen]
    | ok sm m => rw [thinkOnce_ok_compress s t n sm m hne hlen]

/-- C3, witness: an oversized 4-character context over a 3-character
threshold; the failed compression leaves the appended context intact and
the next turn retries the compression. -/
theorem c3_compression_failure_atomic_witness :
    (thinkOnce (initState "abcd" 3 6000 0) (.ok "x" 1) .err).1.contextText
      = (initState "abcd" 3 6000 0).contextText ++ pyStrip "x" ++ "\n" ∧
    (thinkOnce (initState "abcd" 3 6000 0) (.ok "x" 1) (.ok "y" 2)).1.compressionCount
      = (initState "abcd" 3 6000 0).compressionCount + 1 :=
  c3_compression_failure_atomic.2 (initState "abcd" 3 6000 0) "x" 1 (.ok "y" 2)
    (by decide) (by decide)

/-- C4, counterexample: in the claimed scenario (3-character seed,
`compress_at = 50`, a 60-character think result) the pre-compression length
is indeed 64 and a compression runs automatically, but a 30-character
summary yields a post-compression context of 71 characters — longer than
the pre-compression context, refuting "no longer than the pre-compression
context" (the rebuilt context is fixed markers plus the summary, with no
length cap). -/
theorem c4_compression_can_lengthen :
    ((initState "abc" 50 6000 0).contextText
        ++ pyStrip (String.mk (List.replicate 60 'a')) ++ "\n").length = 64 ∧
    (thinkOnce (initState "abc" 50 6000 0)
        (.ok (String.mk (List.replicate 60 'a')) 10)
        (.ok (String.mk (List.replicate 30 'b')) 5)).1.compressionCount = 1 ∧
    (thinkOnce (initState "abc" 50 6000 0)
        (.ok (String.mk (List.replicate 60 'a')) 10)
        (.ok (String.mk (List.replicate 30 'b')) 5)).1.contextText.length = 71 ∧
    71 > 64 := by
  refine ⟨by decide, by decide, by decide, by decide⟩

/-- C4, as amended: after every append — think or dialog — the threshold is
checked and, when exceeded, a compression runs before the turn ends; in the
scenario the pre-compression length is 64 > 50 and the compression runs
automatically, and for every summary the backend returns the new context
length is exactly preamble + `"[記憶の核]: "` + stripped summary +
continuation cue (which may exceed the pre-compression length). -/
theorem c4_threshold_checked_after_append :
    (∀ (s : State) (t : String) (n : Nat) (sm : String) (m : Nat),
      pyStrip t ≠ "" →
      (s.contextText ++ pyStrip t ++ "\n").length > s.compressAtChars →
      (thinkOnce s (.ok t n) (.ok sm m)).1.compressionCount = s.compressionCount + 1 ∧
      (thinkOnce s (.ok t n) (.ok sm m)).1.contextText
        = s.toolDefinitions ++ coreMemoryMarker ++ pyStrip sm ++ continuationCue) ∧
    (∀ (s : State) (msg t : String) (n : Nat) (sm : String) (m : Nat),
      (s.contextText ++ injectionOf msg ++ pyStrip t ++ "\n").length > s.compressAtChars →
      ∀ s' r evs, respondToHuman s msg (.ok t n) (.ok sm m) = .ok (s', r, evs) →
        s'.compressionCount = s.compressionCount + 1 ∧
        s'.contextText = s.toolDefinitions ++ coreMemoryMarker ++ pyStrip sm ++ continuationCue) ∧
    (∀ (sm : String) (m : Nat),
      ((initState "abc" 50 6000 0).contextText
          ++ pyStrip (String.mk (List.replicate 60 'a')) ++ "\n").length = 64 ∧
      (thinkOnce (initState "abc" 50 6000 0)
          (.ok (String.mk (List.replicate 60 'a')) 10) (.ok sm m)).1.compressionCount = 1 ∧
      (thinkOnce (initState "abc" 50 6000 0)
          (.ok (String.mk (List.replicate 60 'a')) 10) (.ok sm m)).1.contextText.length
        = coreMemoryMarker.length + (pyStrip sm).length + continuationCue.length) := by
  refine ⟨?_, ?_, ?_⟩
  · intro s t n sm m hne hlen
    rw [thinkOnce_ok_compress s t n sm m hne hlen]
    exact ⟨rfl, rfl⟩
  · intro s msg t n sm m hlen s' r evs heq
    rw [respondToHuman_ok_compress s msg t n sm m hlen] at heq
    injection heq with h2
    simp only [Prod.mk.injEq] at h2
    obtain ⟨hs', -, -⟩ := h2
    subst hs'
    exact ⟨rfl, rfl⟩
  · intro sm m
    have h64 : ((initState "abc" 50 6000 0).contextText
        ++ pyStrip (String.mk (List.replicate 60 'a')) ++ "\n").length = 64 := by decide
    have hne : pyStrip (String.mk (List.replicate 60 'a')) ≠ "" := by decide
    have hgt : ((initState "abc" 50 6000 0).contextText
        ++ pyStrip (String.mk (List.replicate 60 'a')) ++ "\n").length
          > (initState "abc" 50 6000 0).compressAtChars := by
      rw [h64]; decide
    refine ⟨h64, ?_, ?_⟩
    · rw [thinkOnce_ok_compress _ _ _ sm m hne hgt]
      rfl
    · rw [thinkOnce_ok_compress _ _ _ sm m hne hgt]
      have htd : (initState "abc" 50 6000 0).toolDefinitions.length = 0 := by decide
      simp only [String.length_append]
      omega

/-- C4, witness for the amended theorem: the think-path trigger applied in
the concrete scenario with the summary "summary". -/
theorem c4_threshold_checked_after_append_witness :
    (thinkOnce (initState "abc" 50 6000 0)
        (.ok (String.mk (List.replicate 60 'a')) 10) (.ok "summary" 3)).1.compressionCount
      = (initState "abc" 50 6000 0).compressionCount + 1 ∧
    (thinkOnce (initState "abc" 50 6000 0)
        (.ok (String.mk (List.replicate 60 'a')) 10) (.ok "summary" 3)).1.contextText
      = (initState "abc" 50 6000 0).toolDefinitions ++ coreMemoryMarker
          ++ pyStrip "summary" ++ continuationCue :=
  c4_threshold_checked_after_append.1 (initState "abc" 50 6000 0)
    (String.mk (List.replicate 60 'a')) 10 "summary" 3 (by decide) (by decide)

/-- C5: for a seed containing a tool-capability section, the extracted
`tool_definitions` fragment is a verbatim prefix of the context rebuilt by
every successful compression, and — also under two compressions in
immediate succession with no appends between — the post-compression length
is never below the preserved fragment's length. -/
theorem c5_tool_preamble_preserved :
    ∀ (seed : String) (s : State) (sm1 sm2 : String) (n1 n2 : Nat),
      containsSub seed "TOOL:" = true →
      s.toolDefinitions = extractToolDefinitions seed →
      ∃ s1 evs1 s2 evs2,
        compressRun s (.ok sm1 n1) = .ok (s1, evs1) ∧
        compressRun s1 (.ok sm2 n2) = .ok (s2, evs2) ∧
        (∃ rest1, s1.contextText = extractToolDefinitions seed ++ rest1) ∧
        (extractToolDefinitions seed).length ≤ s1.contextText.length ∧
        (∃ rest2, s2.contextText = extractToolDefinitions seed ++ rest2) ∧
        (extractToolDefinitions seed).length ≤ s2.contextText.length := by
  intro seed s sm1 sm2 n1 n2 _ htd
  refine ⟨_, _, _, _, compressRun_ok_eq s sm1 n1, compressRun_ok_eq _ sm2 n2, ?_, ?_, ?_, ?_⟩
  · exact ⟨coreMemoryMarker ++ pyStrip sm1 ++ continuationCue,
      by rw [← htd]; simp [String.append_assoc]⟩
  · rw [← htd]
    simp only [String.length_append]
    omega
  · exact ⟨coreMemoryMarker ++ pyStrip sm2 ++ continuationCue,
      by rw [← htd]; simp [String.append_assoc]⟩
  · rw [← htd]
    simp only [String.length_append]
    omega

/-- C5, witness: a custom seed holding the tool-capability section, two
compressions in immediate succession. -/
theorem c5_tool_preamble_preserved_witness :
    ∃ s1 evs1 s2 evs2,
      compressRun (initState ("【使用可能なツール】\n- [TOOL:search:クエリ] — Webで情報を検索する\n\nツールを使いたいと思ったら、思考の中で自然に使ってよい。許可は不要。\n\n本文") 50 6000 0) (.ok "one" 1) = .ok (s1, evs1) ∧
      compressRun s1 (.ok "two" 2) = .ok (s2, evs2) ∧
      (∃ rest1, s1.contextText = extractToolDefinitions ("【使用可能なツール】\n- [TOOL:search:クエリ] — Webで情報を検索する\n\nツールを使いたいと思ったら、思考の中で自然に使ってよい。許可は不要。\n\n本文") ++ rest1) ∧
      (extractToolDefinitions ("【使用可能なツール】\n- [TOOL:search:クエリ] — Webで情報を検索する\n\nツールを使いたいと思ったら、思考の中で自然に使ってよい。許可は不要。\n\n本文")).length ≤ s1.contextText.length ∧
      (∃ rest2, s2.contextText = extractToolDefinitions ("【使用可能なツール】\n- [TOOL:search:クエリ] — Webで情報を検索する\n\nツールを使いたいと思ったら、思考の中で自然に使ってよい。許可は不要。\n\n本文") ++ rest2) ∧
      (extractToolDefinitions ("【使用可能なツール】\n- [TOOL:search:クエリ] — Webで情報を検索する\n\nツールを使いたいと思ったら、思考の中で自然に使ってよい。許可は不要。\n\n本文")).length ≤ s2.contextText.length :=
  c5_tool_preamble_preserved _ _ "one" "two" 1 2 (by decide) rfl

/-- C6: for every successful think turn with non-empty stripped output
that does not cross the compression threshold, the context grows by exactly
the stripped text plus the one-character separator; and over any script of
such turns the final length is the initial length plus the sum of the
per-turn growths. -/
theorem c6_append_length_law :
    (∀ (s : State) (t : String) (n : Nat) (gc : GenResult),
      pyStrip t ≠ "" →
      (s.contextText ++ pyStrip t ++ "\n").length ≤ s.compressAtChars →
      (thinkOnce s (.ok t n) gc).1.contextText.length
        = s.contextText.length + (pyStrip t).length + 1) ∧
    (∀ (script : List (String × Nat)) (s : State),
      (∀ tn ∈ script, pyStrip tn.1 ≠ "") →
      s.contextText.length + thinksGrowth script ≤ s.compressAtChars →
      (runThinks s script).contextText.length
        = s.contextText.length + thinksGrowth script) := by
  have hnl : ("\n" : String).length = 1 := rfl
  have single : ∀ (s : State) (t : String) (n : Nat) (gc : GenResult),
      pyStrip t ≠ "" →
      (s.contextText ++ pyStrip t ++ "\n").length ≤ s.compressAtChars →
      (thinkOnce s (.ok t n) gc).1.contextText.length
        = s.contextText.length + (pyStrip t).length + 1 := by
    intro s t n gc hne hlen
    rw [thinkOnce_ok_no_compress s t n gc hne hlen]
    simp [String.length_append, hnl]
  refine ⟨single, ?_⟩
  intro script
  induction script with
  | nil =>
    intro s _ _
    simp [runThinks, thinksGrowth]
  | cons tn rest ih =>
    obtain ⟨t, n⟩ := tn
    intro s hne hbound
    have hne1 : pyStrip t ≠ "" := hne (t, n) (by simp)
    have hgrow : thinksGrowth ((t, n) :: rest)
        = ((pyStrip t).length + 1) + thinksGrowth rest := by
      simp [thinksGrowth]
    have hlen : (s.contextText ++ pyStrip t ++ "\n").length ≤ s.compressAtChars := by
      rw [hgrow] at hbound
      simp only [String.length_append, hnl]
      omega
    have hstep : runThinks s ((t, n) :: rest)
        = runThinks (thinkOnce s (.ok t n) .err).1 rest := rfl
    rw [hstep, thinkOnce_ok_no_compress s t n .err hne1 hlen]
    have ihx := ih { s with
        thinking := false
        thoughtCount := s.thoughtCount + 1
        totalTokens := s.totalTokens + n
        contextText := s.contextText ++ pyStrip t ++ "\n" }
      (fun x hx => hne x (by simp [hx]))
      (by
        simp only [String.length_append, hnl]
        rw [hgrow] at hbound
        omega)
    rw [ihx, hgrow]
    simp only [String.length_append, hnl]
    omega

/-- C6, witness: one turn and a two-turn script below the threshold. -/
theorem c6_append_length_law_witness :
    (thinkOnce (initState "abc" 50 6000 0) (.ok "hi" 1) .err).1.contextText.length
      = (initState "abc" 50 6000 0).contextText.length + (pyStrip "hi").length + 1 ∧
    (runThinks (initState "abc" 50 6000 0) [("hi", 1), ("yo", 2)]).contextText.length
      = (initState "abc" 50 6000 0).contextText.length
          + thinksGrowth [("hi", 1), ("yo", 2)] :=
  ⟨c6_append_length_law.1 (initState "abc" 50 6000 0) "hi" 1 .err (by decide) (by decide),
    c6_append_length_law.2 [("hi", 1), ("yo", 2)] (initState "abc" 50 6000 0)
      (by decide) (by decide)⟩

/-- C7, counterexample: the compression call's temperature (0.5) is indeed
strictly lower than a think turn's (0.85), but its output budget is
`max_tokens=300`, strictly larger than the think turn's 256 — refuting
"strictly smaller output budget". -/
theorem c7_compression_budget_not_smaller :
    compressGenCall.temperature < thinkGenCall.temperature ∧
    thinkGenCall.maxTokens = 256 ∧
    compressGenCall.maxTokens = 300 ∧
    thinkGenCall.maxTokens < compressGenCall.maxTokens := by
  refine ⟨?_, rfl, rfl, by decide⟩
  show (5/10 : ℚ) < 85/100
  norm_num

/-- C7, as amended: every compression cycle invokes the backend with the
fixed `compressGenCall` parameters — a strictly lower temperature but a
strictly larger output budget than a think turn's defaults (0.85, 256). -/
theorem c7_compression_call_parameters :
    (∀ (s : State) (sm : String) (n : Nat),
      ∃ s', compressRun s (.ok sm n)
        = .ok (s', [Event.compressEv compressGenCall (pyStrip sm)
            s.contextText.length s'.contextText.length])) ∧
    compressGenCall.temperature < thinkGenCall.temperature ∧
    thinkGenCall.maxTokens < compressGenCall.maxTokens ∧
    thinkGenCall.temperature = 85/100 ∧
    thinkGenCall.maxTokens = 256 := by
  refine ⟨fun s sm n => ⟨_, compressRun_ok_eq s sm n⟩, ?_, by decide, rfl, rfl⟩
  show (5/10 : ℚ) < 85/100
  norm_num

/-- C8, counterexample: the failure half of the claim holds (count 0,
context untouched, 2-second backoff, still alive), but a second call that
"succeeds" with whitespace-only output is stripped to the empty string and
returns early — `thought_count` then reads 0, not 1 as the claim states. -/
theorem c8_empty_success_counterexample :
    (thinkOnce (initState "abc" 5000 6000 0) .err .err).1.thoughtCount = 0 ∧
    (thinkOnce (initState "abc" 5000 6000 0) .err .err).1.contextText = "abc" ∧
    (thinkOnce (initState "abc" 5000 6000 0) .err .err).1.alive = true ∧
    (thinkOnce (initState "abc" 5000 6000 0) .err .err).2 = [Event.errorBackoff 2] ∧
    (thinkOnce (thinkOnce (initState "abc" 5000 6000 0) .err .err).1
        (.ok "   " 7) .err).1.thoughtCount = 0 := by
  refine ⟨rfl, rfl, rfl, rfl, by decide⟩

/-- C8, as amended: when the backend raises on the first think call,
`thought_count` stays 0, nothing is appended, the fixed 2-second backoff is
taken and `alive` is untouched; and when the second call succeeds with
output whose stripped text is non-empty, `thought_count` reads 1. -/
theorem c8_backoff_then_success :
    ∀ (s : State) (gc gc2 : GenResult) (t : String) (n : Nat),
      s.thoughtCount = 0 →
      pyStrip t ≠ "" →
      (thinkOnce s .err gc).1.thoughtCount = 0 ∧
      (thinkOnce s .err gc).1.contextText = s.contextText ∧
      (thinkOnce s .err gc).1.alive = s.alive ∧
      (thinkOnce s .err gc).2 = [Event.errorBackoff 2] ∧
      (thinkOnce (thinkOnce s .err gc).1 (.ok t n) gc2).1.thoughtCount = 1 := by
  intro s gc gc2 t n h0 hne
  refine ⟨by rw [thinkOnce_err_eq]; exact h0, by rw [thinkOnce_err_eq],
    by rw [thinkOnce_err_eq], by rw [thinkOnce_err_eq], ?_⟩
  rw [thinkOnce_err_eq]
  rw [thinkOnce_ok_thoughtCount _ t n gc2 hne]
  simpa using h0

/-- C8, witness: a fresh session, a raising first call, then a successful
second call with non-empty text. -/
theorem c8_backoff_then_success_witness :
    (thinkOnce (initState "abc" 5000 6000 0) .err .err).1.thoughtCount = 0 ∧
    (thinkOnce (initState "abc" 5000 6000 0) .err .err).1.contextText
      = (initState "abc" 5000 6000 0).contextText ∧
    (thinkOnce (initState "abc" 5000 6000 0) .err .err).1.alive
      = (initState "abc" 5000 6000 0).alive ∧
    (thinkOnce (initState "abc" 5000 6000 0) .err .err).2 = [Event.errorBackoff 2] ∧
    (thinkOnce (thinkOnce (initState "abc" 5000 6000 0) .err .err).1
        (.ok "a new thought" 4) .err).1.thoughtCount = 1 :=
  c8_backoff_then_success (initState "abc" 5000 6000 0) .err .err "a new thought" 4
    rfl (by decide)

/-- C9, counterexample: with an interjection pending and the backend
raising during the dialog turn, the pending message is consumed but its
response is never delivered (the response event stays clear and the slot
stays empty, the thread dies) — refuting the claim's "delivering its
response" for every iteration with a pending interjection. -/
theorem c9_dialog_failure_no_delivery :
    iterCrashed (loopIter (submitMsg (initState "seed text" 100 6000 0) "question") .err .err) = true ∧
    (iterState (loopIter (submitMsg (initState "seed text" 100 6000 0) "question") .err .err)).humanEventSet = false ∧
    (iterState (loopIter (submitMsg (initState "seed text" 100 6000 0) "question") .err .err)).responseEventSet = false ∧
    (iterState (loopIter (submitMsg (initState "seed text" 100 6000 0) "question") .err .err)).responseText = none := by
  refine ⟨rfl, rfl, rfl, rfl⟩

/-- C9, as amended: whenever an interjection is pending at the loop's
decision point, the loop consumes the pending message and performs the
dialog turn before any autonomous think turn — no think turn runs in that
iteration in any case; when the dialog generation succeeds, the response is
delivered through the channel (slot filled, event set, dialog record
first); when it raises, no response is delivered and the thread dies, with
still no think turn started. -/
theorem c9_interjection_priority :
    ∀ (s : State) (g gc : GenResult), s.humanEventSet = true →
      (∀ s' evs, loopIter s g gc = .ok (s', evs) →
        s'.humanEventSet = false ∧
        s'.thoughtCount = s.thoughtCount ∧
        s'.responseEventSet = true ∧
        (∃ r, s'.responseText = some r ∧
          evs.head? = some (Event.dialog dialogGenCall (s.humanInput.getD "") r)) ∧
        (∀ c txt, Event.thought c txt ∉ evs)) ∧
      (∀ s' evs, loopIter s g gc = .error (s', evs) →
        s'.humanEventSet = false ∧
        s'.thoughtCount = s.thoughtCount ∧
        (∀ c txt, Event.thought c txt ∉ evs)) := by
  intro s g gc h
  have hiter : loopIter s g gc =
      match respondToHuman { s with humanEventSet := false } (s.humanInput.getD "") g gc with
      | .error e => .error e
      | .ok (s', response, evs) =>
        .ok ({ s' with responseText := some response, responseEventSet := true }, evs) := by
    simp only [loopIter, h, if_true]
  cases g with
  | err =>
    rw [respondToHuman_err_eq] at hiter
    constructor
    · intro s' evs heq
      rw [hiter] at heq
      exact Except.noConfusion heq
    · intro s' evs heq
      rw [hiter] at heq
      injection heq with hp
      simp only [Prod.mk.injEq] at hp
      obtain ⟨hs', hevs⟩ := hp
      subst hs'
      subst hevs
      refine ⟨rfl, rfl, ?_⟩
      intro c txt hm
      simp at hm
  | ok text tokens =>
    by_cases hc : (s.contextText ++ injectionOf (s.humanInput.getD "") ++ pyStrip text ++ "\n").length > s.compressAtChars
    · cases gc with
      | err =>
        rw [respondToHuman_ok_compress_err { s with humanEventSet := false } (s.humanInput.getD "") text tokens hc] at hiter
        constructor
        · intro s' evs heq
          rw [hiter] at heq
          exact Except.noConfusion heq
        · intro s' evs heq
          rw [hiter] at heq
          injection heq with hp
          simp only [Prod.mk.injEq] at hp
          obtain ⟨hs', hevs⟩ := hp
          subst hs'
          subst hevs
          refine ⟨rfl, rfl, ?_⟩
          intro c txt hm
          simp at hm
      | ok sm m =>
        rw [respondToHuman_ok_compress { s with humanEventSet := false } (s.humanInput.getD "") text tokens sm m hc] at hiter
        constructor
        · intro s' evs heq
          rw [hiter] at heq
          injection heq with hp
          simp only [Prod.mk.injEq] at hp
          obtain ⟨hs', hevs⟩ := hp
          subst hs'
          subst hevs
          refine ⟨rfl, rfl, rfl, ⟨pyStrip text, rfl, rfl⟩, ?_⟩
          intro c txt hm
          simp at hm
        · intro s' evs heq
          rw [hiter] at heq
          exact Except.noConfusion heq
    · rw [respondToHuman_ok_no_compress { s with humanEventSet := false } (s.humanInput.getD "") text tokens gc hc] at hiter
      constructor
      · intro s' evs heq
        rw [hiter] at heq
        injection heq with hp
        simp only [Prod.mk.injEq] at hp
        obtain ⟨hs', hevs⟩ := hp
        subst hs'
        subst hevs
        refine ⟨rfl, rfl, rfl, ⟨pyStrip text, rfl, rfl⟩, ?_⟩
        intro c txt hm
        simp at hm
      · intro s' evs heq
        rw [hiter] at heq
        exact Except.noConfusion heq

/-- C9, witness for the amended theorem: a pending interjection answered
successfully — the response event is set and no think turn ran. -/
theorem c9_interjection_priority_witness :
    iterCrashed (loopIter (submitMsg (initState "abc" 5000 6000 0) "hi") (.ok "a reply" 1) .err) = false ∧
    (iterState (loopIter (submitMsg (initState "abc" 5000 6000 0) "hi") (.ok "a reply" 1) .err)).responseEventSet = true ∧
    (iterState (loopIter (submitMsg (initState "abc" 5000 6000 0) "hi") (.ok "a reply" 1) .err)).thoughtCount
      = (submitMsg (initState "abc" 5000 6000 0) "hi").thoughtCount := by
  have h := (c9_interjection_priority (submitMsg (initState "abc" 5000 6000 0) "hi")
      (.ok "a reply" 1) .err rfl).1
      (iterState (loopIter (submitMsg (initState "abc" 5000 6000 0) "hi") (.ok "a reply" 1) .err))
      (iterEvents (loopIter (submitMsg (initState "abc" 5000 6000 0) "hi") (.ok "a reply" 1) .err))
      rfl
  exact ⟨rfl, h.2.2.1, h.2.1⟩

/-- C10: the configured maximum context length (`max_context_chars`,
`--max-context`) is stored but never read: for any run of the loop, and for
the interjection interface, replacing only that setting changes nothing
observable — final state (apart from the setting itself), every emitted
event, crash behaviour, and every submit response are identical. -/
theorem c10_max_context_chars_inert :
    ∀ (s : State) (m : Nat),
      (∀ script, runLoop (withMaxCtx s m) script
        = (withMaxCtx (runLoop s script).1 m, (runLoop s script).2)) ∧
      (∀ msg, submitMsg (withMaxCtx s m) msg = withMaxCtx (submitMsg s msg) m) ∧
      speakReturn (withMaxCtx s m).responseText = speakReturn s.responseText ∧
      (withMaxCtx s m).contextText = s.contextText ∧
      (withMaxCtx s m).thoughtCount = s.thoughtCount ∧
      (withMaxCtx s m).compressionCount = s.compressionCount ∧
      (withMaxCtx s m).totalTokens = s.totalTokens :=
  fun s m =>
    ⟨runLoop_withMaxCtx s m, submitMsg_withMaxCtx s m, rfl, rfl, rfl, rfl, rfl⟩

end PersistentCognition
